import Mathlib

/- Shallow embedding of the farmai-assistant retrieval-augmented agricultural
   assistant (src/src/rag_system.py, src/src/agents.py, src/src/data_loader.py).
   External services (embedding provider, completion provider, vector store,
   QA chain) are modelled as oracle functions returning `Except String _`,
   where `Except.error e` stands for a raised Python exception with
   message `str(e) = e`.  Python dicts that carry optional keys are modelled
   as structures with `Option` fields. -/

namespace FarmAI

/-- Model of Python string slicing `s[:n]` (slices by code points). -/
def pySlice (s : String) (n : Nat) : String :=
  String.mk (s.data.take n)

/-- Helper for Python `pat in s` on strings: does `pat` occur as a
contiguous run inside the character list? -/
def subOccurs (pat : List Char) : List Char → Bool
  | [] => pat.isEmpty
  | c :: rest => pat.isPrefixOf (c :: rest) || subOccurs pat rest

/-- Model of Python substring containment `pat in s`. -/
def strContainsSub (s pat : String) : Bool :=
  subOccurs pat.data s.data

/-- Model of Python `s.strip()`: drop whitespace from both ends. -/
def pyStrip (s : String) : String :=
  String.mk (((s.data.dropWhile Char.isWhitespace).reverse.dropWhile Char.isWhitespace).reverse)

/-- Model of Python `s.lower()` (ASCII case folding, as used here). -/
def pyLower (s : String) : String :=
  String.mk (s.data.map Char.toLower)

/-- One provenance record produced by `FarmAIRAG.query` (a Python dict with
keys content/title/source/category/score). -/
structure Source where
  content : String
  title : String
  source : String
  category : String
  score : ℚ
deriving DecidableEq

/-- The response dict passed between pipeline stages (the spec's
AgentResponse).  Keys that are present only on some paths are `Option`
fields (absent key = `none`) or default to the empty list. -/
structure AgentResponse where
  response : String
  sources : List Source
  query : String
  agent_workflow : List String := []
  diagnosis : Option String := none
  verified : Option Bool := none
  verification_error : Option String := none
deriving DecidableEq

/-- Metadata dict of a langchain `Document`. -/
structure LCMetadata where
  title : Option String := none
  source : Option String := none
  category : Option String := none
  language : Option String := none
deriving DecidableEq

/-- A langchain `Document`: page content plus metadata. -/
structure LCDoc where
  page_content : String
  metadata : LCMetadata
deriving DecidableEq

/-- Result dict of a `qa_chain({"query": ...})` call: the generated text and
the optional `source_documents` key. -/
structure QAResult where
  result : String
  source_documents : Option (List LCDoc) := none
deriving DecidableEq

/-- One entry of the `hybrid_search` result list. -/
structure HSResult where
  content : String
  metadata : LCMetadata
  score : ℚ
  search_type : String
deriving DecidableEq

/-- An input document dict as consumed by `build_knowledge_base` and
`validate_document`; every key may be absent. -/
structure PyDoc where
  title : Option String := none
  content : Option String := none
  source : Option String := none
  category : Option String := none
  language : Option String := none
  crop : Option String := none
deriving DecidableEq

/-- The per-document source dict built in `FarmAIRAG.query`'s loop over
`result["source_documents"]` (score is the hard-coded placeholder 0.8). -/
def FarmAIRAG.sourceOfDoc (doc : LCDoc) : Source :=
  { content := doc.page_content,
    title := doc.metadata.title.getD "Agricultural Guide",
    source := doc.metadata.source.getD "Knowledge Base",
    category := doc.metadata.category.getD "general",
    score := (8 : ℚ) / 10 }

/-- `FarmAIRAG.query`.  `hasChain` models `self.qa_chain` being set (a
successful build); `qaChain` is the oracle for `self.qa_chain({...})` applied
to the enhanced question.  When `hasChain` is false the code raises
`ValueError("Knowledge base not initialized")` inside its own `try`, which is
caught by the same function's `except` branch. -/
def FarmAIRAG.query (hasChain : Bool) (qaChain : String → Except String QAResult)
    (question : String) (context : Option String) : AgentResponse :=
  if hasChain = false then
    { response := "I apologize, but I encountered an error processing your question: Knowledge base not initialized",
      sources := [], query := question }
  else
    let enhanced_question :=
      match context with
      | some c => if c = "" then question else "Context: " ++ c ++ "\n\nQuestion: " ++ question
      | none => question
    match qaChain enhanced_question with
    | Except.error e =>
        { response := "I apologize, but I encountered an error processing your question: " ++ e,
          sources := [], query := question }
    | Except.ok result =>
        { response := result.result,
          sources :=
            (match result.source_documents with
             | some docs => docs.map FarmAIRAG.sourceOfDoc
             | none => []),
          query := question }

/-- `FarmAIRAG.hybrid_search`.  `hasStore` models `self.vectorstore` being
set; `sim` is the oracle for `similarity_search_with_score(query, k)`. -/
def FarmAIRAG.hybrid_search (hasStore : Bool)
    (sim : String → Nat → Except String (List (LCDoc × ℚ)))
    (query : String) (top_k : Nat) : List HSResult :=
  if hasStore = false then []
  else
    match sim query top_k with
    | Except.error _ => []
    | Except.ok docs_with_scores =>
        docs_with_scores.map (fun p =>
          { content := p.1.page_content,
            metadata := p.1.metadata,
            score := 1 - p.2,
            search_type := "semantic" })

/-- The langchain documents produced from one input document inside
`build_knowledge_base`'s loop: `doc['content']` raises `KeyError` when the
key is absent; metadata defaults come from `doc.get`. -/
def docChunks (split : String → List String) (doc : PyDoc) : Except String (List LCDoc) :=
  match doc.content with
  | none => Except.error "KeyError: content"
  | some c =>
      Except.ok ((split c).map (fun chunk =>
        { page_content := chunk,
          metadata :=
            { title := some (doc.title.getD "Agricultural Guide"),
              source := some (doc.source.getD "Agricultural Knowledge Base"),
              category := some (doc.category.getD "general"),
              language := some (doc.language.getD "en") } }))

/-- The whole document loop of `build_knowledge_base`: the first raised
`KeyError` aborts the loop (it is only caught by the function's outer
`except`). -/
def buildLangchainDocs (split : String → List String) : List PyDoc → Except String (List LCDoc)
  | [] => Except.ok []
  | d :: rest =>
      match docChunks split d with
      | Except.error e => Except.error e
      | Except.ok cs =>
          match buildLangchainDocs split rest with
          | Except.error e => Except.error e
          | Except.ok tail => Except.ok (cs ++ tail)

/-- `FarmAIRAG.build_knowledge_base`: returns the Python `True`/`False`
success flag together with the indexed langchain documents when the build
succeeded (`none` when the outer `except` returned `False`).  `externalsOk`
models the embedding / FAISS / LLM initialisation calls succeeding. -/
def FarmAIRAG.build_knowledge_base (split : String → List String)
    (externalsOk : Bool) (documents : List PyDoc) : Bool × Option (List LCDoc) :=
  match buildLangchainDocs split documents with
  | Except.error _ => (false, none)
  | Except.ok l => if externalsOk then (true, some l) else (false, none)

/-- `validate_document` from data_loader.py: both required keys present. -/
def validate_document (doc : PyDoc) : Bool :=
  doc.title.isSome && doc.content.isSome

/-- The context accumulation loop shared by `DiagnosticAgent.diagnose` and
`RecommendationAgent.recommend`: `context += f"\ncontent"` over the
retrieved sources. -/
def contextConcat (sources : List Source) : String :=
  sources.foldl (fun acc s => acc ++ "\n" ++ s.content) ""

/-- The context string actually handed to the completion provider:
`context[:2000]`. -/
def slicedContext (sources : List Source) : String :=
  pySlice (contextConcat sources) 2000

/-- The closed label set of `QueryClassifierAgent.classify`. -/
def valid_categories : List String :=
  ["disease", "pest", "management", "general", "problem"]

/-- `QueryClassifierAgent.classify`; `llm` is the oracle for
`chain.run(query=query)`. -/
def QueryClassifierAgent.classify (llm : String → Except String String)
    (query : String) : String :=
  match llm query with
  | Except.error _ => "general"
  | Except.ok result =>
      let classification := pyLower (pyStrip result)
      if classification ∈ valid_categories then classification else "general"

/-- `DiagnosticAgent.diagnose`; `rag` is the injected `rag_system.query` and
`llm` the oracle for `chain.run(query=query, context=context[:2000])`. -/
def DiagnosticAgent.diagnose (rag : String → AgentResponse)
    (llm : String → String → Except String String) (query : String) : AgentResponse :=
  let rag_result := rag query
  match llm query (slicedContext rag_result.sources) with
  | Except.ok diagnosis =>
      { response := diagnosis,
        sources := rag_result.sources,
        diagnosis := some diagnosis,
        query := query }
  | Except.error e =>
      { response := "Unable to provide diagnosis: " ++ e,
        sources := [], query := query }

/-- `RecommendationAgent.recommend`; `llm` is the oracle for
`chain.run(query=..., context=context[:2000], diagnosis=diagnosis_text)`.
The empty diagnosis string is falsy in Python, so `diagnosis_text` is empty
exactly then. -/
def RecommendationAgent.recommend (rag : String → AgentResponse)
    (llm : String → String → String → Except String String)
    (query : String) (diagnosis : String) : AgentResponse :=
  let rag_result := rag query
  let diagnosis_text := if diagnosis = "" then "" else "Previous Diagnosis: " ++ diagnosis
  match llm query (slicedContext rag_result.sources) diagnosis_text with
  | Except.ok recommendations =>
      { response := recommendations,
        sources := rag_result.sources,
        query := query }
  | Except.error e =>
      { response := "Unable to provide recommendations: " ++ e,
        sources := [], query := query }

/-- The short-circuit test of `VerificationAgent.verify`:
`"error" in response.lower() or "apologize" in response.lower()`. -/
def signalsError (s : String) : Bool :=
  strContainsSub (pyLower s) "error" || strContainsSub (pyLower s) "apologize"

/-- `VerificationAgent.verify`; `llm` is the oracle for
`chain.run(query=query, response=original_response)`. -/
def VerificationAgent.verify (llm : String → String → Except String String)
    (query : String) (response_data : AgentResponse) : AgentResponse :=
  let original_response := response_data.response
  if signalsError original_response then response_data
  else
    match llm query original_response with
    | Except.ok verified_response =>
        { response_data with response := verified_response, verified := some true }
    | Except.error e =>
        { response_data with verified := some false, verification_error := some e }

/-- The dedup fingerprint used when merging source lists:
`source.get('content', '')[:100]`. -/
def contentKey (s : Source) : String :=
  pySlice s.content 100

/-- The duplicate-removal loop of
`_combine_diagnosis_and_recommendation` (`seen` models the
`seen_content` set). -/
def dedupSources : List Source → List String → List Source
  | [], _ => []
  | s :: rest, seen =>
      if contentKey s ∈ seen then dedupSources rest seen
      else s :: dedupSources rest (contentKey s :: seen)

/-- `FarmAIAgents._combine_diagnosis_and_recommendation`. -/
def FarmAIAgents.combine_diagnosis_and_recommendation
    (diagnosis recommendation : AgentResponse) : AgentResponse :=
  { response := "**Diagnosis:**\n" ++ diagnosis.response ++
      "\n\n**Recommendations:**\n" ++ recommendation.response,
    sources := dedupSources (diagnosis.sources ++ recommendation.sources) [],
    query := diagnosis.query,
    agent_workflow := ["classifier", "diagnostic", "recommendation", "verification"] }

/-- The oracle environment of one `FarmAIAgents.process_query` call: the
injected rag system plus the completion-provider behaviour of each agent's
chain for this request. -/
structure Env where
  classifyLLM : String → Except String String
  diagnoseLLM : String → String → Except String String
  recommendLLM : String → String → String → Except String String
  verifyLLM : String → String → Except String String
  rag : String → AgentResponse

/-- The routing block of `process_query` (steps 1 and 2 inside the `try`). -/
def routeResponse (env : Env) (query : String) (query_type : String) : AgentResponse :=
  if query_type ∈ ["disease", "pest", "problem"] then
    let diagnosis_result := DiagnosticAgent.diagnose env.rag env.diagnoseLLM query
    let recommendation_result :=
      RecommendationAgent.recommend env.rag env.recommendLLM query
        (diagnosis_result.diagnosis.getD "")
    FarmAIAgents.combine_diagnosis_and_recommendation diagnosis_result recommendation_result
  else if query_type ∈ ["management", "general", "best_practice"] then
    RecommendationAgent.recommend env.rag env.recommendLLM query ""
  else
    env.rag query

/-- `FarmAIAgents.process_query`.  `exn` models a runtime exception escaping
the stage logic inside the `try` block (`some e` with message `e`); `none`
is the normal execution, in which every stage is total because each agent
catches its own failures. -/
def FarmAIAgents.process_query (env : Env) (exn : Option String) (query : String) : AgentResponse :=
  match exn with
  | some e =>
      { response := "I apologize, but I encountered an error processing your agricultural question: " ++ e,
        sources := [], query := query, agent_workflow := ["error"] }
  | none =>
      let query_type := QueryClassifierAgent.classify env.classifyLLM query
      let response := routeResponse env query query_type
      VerificationAgent.verify env.verifyLLM query response

/-- Concrete oracle environment used for claim C2: the classifier answers
"disease", both specialists succeed, and the verification provider rewrites
the combined text to "OK". -/
def envC2 : Env :=
  { classifyLLM := fun _ => Except.ok "disease",
    diagnoseLLM := fun _ _ => Except.ok "Leaf blight likely",
    recommendLLM := fun _ _ _ => Except.ok "Use fungicide",
    verifyLLM := fun _ _ => Except.ok "OK",
    rag := fun q => { response := "ragout", sources := [], query := q } }

/-- A retrieved chunk of 1500 characters (claim C5). -/
def srcA : Source :=
  { content := String.mk (List.replicate 1500 'a'),
    title := "A", source := "s", category := "c", score := 0 }

/-- A second, lower-ranked retrieved chunk of 1500 characters (claim C5). -/
def srcB : Source :=
  { content := String.mk (List.replicate 1500 'b'),
    title := "B", source := "s", category := "c", score := 0 }

/-- A QA-chain oracle that would answer normally (claim C6). -/
def qaC6 : String → Except String QAResult :=
  fun _ => Except.ok { result := "ans", source_documents := some [] }

/-- A similarity-search oracle that finds no matches (claim C6). -/
def simC6 : String → Nat → Except String (List (LCDoc × ℚ)) :=
  fun _ _ => Except.ok []

/-- A trivial chunker stub for the build-path claims (claim C7). -/
def splitW : String → List String := fun c => [c]

/-- A fully valid input document (claim C7). -/
def docOk : PyDoc := { title := some "Tomato Guide", content := some "blight advice" }

/-- An input document missing the required content key (claim C7). -/
def docNoContent : PyDoc := { title := some "Broken" }

/-- An input document missing the required title key (claim C7). -/
def docNoTitle : PyDoc := { content := some "untitled advice" }

/-- A composed response that does not signal an error (claim C8). -/
def rdC8 : AgentResponse := { response := "Looks fine", sources := [], query := "q" }

/-- A composed response that signals an apology (claim C8). -/
def rdErrC8 : AgentResponse :=
  { response := "I apologize, nothing found", sources := [], query := "q" }

/-- Diagnosis-side source (claim C9). -/
def srcW1 : Source := { content := "alpha", title := "t", source := "s", category := "c", score := 0 }

/-- Second diagnosis-side source (claim C9). -/
def srcW2 : Source := { content := "beta", title := "t", source := "s", category := "c", score := 0 }

/-- Recommendation-side source whose content prefix duplicates srcW1 (claim C9). -/
def srcW3 : Source := { content := "alpha", title := "t2", source := "s2", category := "c2", score := 0 }

/-- Diagnosis response used for claim C9's witness. -/
def dW : AgentResponse := { response := "diag", sources := [srcW1, srcW2], query := "q" }

/-- Recommendation response used for claim C9's witness. -/
def rW : AgentResponse := { response := "rec", sources := [srcW3], query := "q" }

/-- RAG stub for claim C5's witness. -/
def ragW : String → AgentResponse :=
  fun q => { response := "r", sources := [], query := q }

/-- First diagnosis-provider stub for claim C5's witness. -/
def llmW1 : String → String → Except String String := fun _ _ => Except.ok "X"

/-- Second diagnosis-provider stub for claim C5's witness: it agrees with
the first on the empty context actually passed but differs elsewhere. -/
def llmW2 : String → String → Except String String :=
  fun _ c => if c = "" then Except.ok "X" else Except.error "different"

/-- Helper: the classifier only ever returns one of the five valid labels. -/
theorem classify_mem_valid (llm : String → Except String String) (q : String) :
    QueryClassifierAgent.classify llm q ∈ valid_categories := by
  unfold QueryClassifierAgent.classify
  cases hr : llm q with
  | error e =>
      show "general" ∈ valid_categories
      decide
  | ok r =>
      show (if pyLower (pyStrip r) ∈ valid_categories then pyLower (pyStrip r) else "general") ∈
        valid_categories
      split
      · assumption
      · decide

/-- C1: for every query, `FarmAIAgents.process_query` never raises (it is a
total function of its oracle environment), and when an exception with
message `e` escapes the stage logic inside the `try` block, the returned
AgentResponse carries the apologetic error message, empty sources, the
original query, and `agent_workflow = ["error"]`. -/
theorem C1_process_query_error_boundary (env : Env) (q e : String) :
    FarmAIAgents.process_query env (some e) q =
      { response := "I apologize, but I encountered an error processing your agricultural question: " ++ e,
        sources := [], query := q, agent_workflow := ["error"] } := rfl

/-- C3: `FarmAIRAG.query` always returns a well-formed AgentResponse (this
is its return type); in particular, against a completion provider stub that
always raises with message `e`, it returns the user-facing failure text with
empty sources instead of propagating the exception. -/
theorem C3_query_provider_failure (e q : String) (ctx : Option String) :
    FarmAIRAG.query true (fun _ => Except.error e) q ctx =
      { response := "I apologize, but I encountered an error processing your question: " ++ e,
        sources := [], query := q } := by
  cases ctx with
  | none => rfl
  | some c => rfl

/-- C4 counterexample: the provider output "Disease" is not a member of the
closed label set, yet `classify` returns "disease" (its normalized form)
rather than the claimed default "general". -/
theorem C4_counterexample :
    QueryClassifierAgent.classify (fun _ => Except.ok "Disease") "any query" = "disease" ∧
    "Disease" ∉ valid_categories ∧
    QueryClassifierAgent.classify (fun _ => Except.ok "Disease") "any query" ≠ "general" := by
  refine ⟨by decide, by decide, by decide⟩

/-- C4 (amended): `classify` always returns a label from the closed set
{disease, pest, management, general, problem}; a provider exception yields
"general", and a provider output whose stripped lowercased form lies outside
the set yields "general". -/
theorem C4_classify_normalized (llm : String → Except String String) (q : String) :
    QueryClassifierAgent.classify llm q ∈ valid_categories ∧
    (∀ e, llm q = Except.error e → QueryClassifierAgent.classify llm q = "general") ∧
    (∀ s, llm q = Except.ok s → pyLower (pyStrip s) ∉ valid_categories →
      QueryClassifierAgent.classify llm q = "general") := by
  refine ⟨classify_mem_valid llm q, ?_, ?_⟩
  · intro e he
    simp [QueryClassifierAgent.classify, he]
  · intro s hs hmem
    simp only [QueryClassifierAgent.classify, hs]
    rw [if_neg hmem]

/-- C4 witness: the amended theorem applied to a provider stub answering
"banana". -/
theorem C4_classify_normalized_witness :
    QueryClassifierAgent.classify (fun _ => Except.ok "banana") "w" = "general" :=
  (C4_classify_normalized (fun _ => Except.ok "banana") "w").2.2 "banana" rfl (by decide)

/-- C2 counterexample: on a concrete oracle environment where the classifier
answers "disease" and the verification provider rewrites the combined text
to "OK", `process_query` returns a response that contains neither labeled
section, so the claim's "returns a response containing both sections" fails
as stated. -/
theorem C2_counterexample :
    (FarmAIAgents.process_query envC2 none "tomato leaves have spots").response = "OK" ∧
    strContainsSub (FarmAIAgents.process_query envC2 none "tomato leaves have spots").response
      "Diagnosis:" = false := by
  exact ⟨by decide, by decide⟩

/-- C2 (amended): for labels in {disease, pest, problem} the routing stage
runs diagnose then recommend and composes a combined response containing a
"**Diagnosis:**" section followed by a "**Recommendations:**" section (this
composed response is what is then handed to the verification stage, whose
provider may rewrite the final text); labels in {management, general,
best_practice} run only recommend; any other label falls back to a direct
`rag_system.query` call. -/
theorem C2_routing (env : Env) (q t : String) :
    (t ∈ ["disease", "pest", "problem"] →
      routeResponse env q t =
        FarmAIAgents.combine_diagnosis_and_recommendation
          (DiagnosticAgent.diagnose env.rag env.diagnoseLLM q)
          (RecommendationAgent.recommend env.rag env.recommendLLM q
            ((DiagnosticAgent.diagnose env.rag env.diagnoseLLM q).diagnosis.getD "")) ∧
      (∃ a b, (routeResponse env q t).response =
        "**Diagnosis:**\n" ++ a ++ "\n\n**Recommendations:**\n" ++ b)) ∧
    (t ∈ ["management", "general", "best_practice"] →
      routeResponse env q t = RecommendationAgent.recommend env.rag env.recommendLLM q "") ∧
    (t ∉ ["disease", "pest", "problem"] → t ∉ ["management", "general", "best_practice"] →
      routeResponse env q t = env.rag q) := by
  refine ⟨?_, ?_, ?_⟩
  · intro h
    unfold routeResponse
    rw [if_pos h]
    exact ⟨rfl, ⟨_, _, rfl⟩⟩
  · intro h
    have hnot : t ∉ ["disease", "pest", "problem"] := by
      intro hc
      simp only [List.mem_cons, List.not_mem_nil, or_false] at h
      rcases h with h | h | h <;> subst h <;> exact absurd hc (by decide)
    unfold routeResponse
    rw [if_neg hnot, if_pos h]
  · intro h1 h2
    unfold routeResponse
    rw [if_neg h1, if_neg h2]

/-- C2 witness: the amended routing theorem applied on the concrete
environment for the labels "disease", "general" and the unrecognized label
"weather". -/
theorem C2_routing_witness :
    (∃ a b, (routeResponse envC2 "q" "disease").response =
      "**Diagnosis:**\n" ++ a ++ "\n\n**Recommendations:**\n" ++ b) ∧
    routeResponse envC2 "q" "general" =
      RecommendationAgent.recommend envC2.rag envC2.recommendLLM "q" "" ∧
    routeResponse envC2 "q" "weather" = envC2.rag "q" :=
  ⟨((C2_routing envC2 "q" "disease").1 (by decide)).2,
   (C2_routing envC2 "q" "general").2.1 (by decide),
   (C2_routing envC2 "q" "weather").2.2 (by decide) (by decide)⟩

/-- C6 counterexample: querying before a successful build does not fail
fast with a distinct NotInitialized condition: `query` returns a
normal-shaped AgentResponse with an apologetic text and empty sources, and
`hybrid_search` on an unbuilt store returns the same empty list a built
store with zero matches returns. -/
theorem C6_counterexample :
    FarmAIRAG.query false qaC6 "what causes blight" none =
      { response := "I apologize, but I encountered an error processing your question: Knowledge base not initialized",
        sources := [], query := "what causes blight" } ∧
    FarmAIRAG.hybrid_search false simC6 "what causes blight" 5 = [] ∧
    FarmAIRAG.hybrid_search true simC6 "what causes blight" 5 = [] :=
  ⟨rfl, rfl, rfl⟩

/-- C6 (amended): querying before a successful build is caught inside
`query` itself (the internal ValueError is converted in-band): the caller
receives a normal-shaped AgentResponse embedding the message "Knowledge
base not initialized" with empty sources, and `hybrid_search` returns the
empty list — distinguishable from zero matches only by the response text,
not by a distinct failure condition. -/
theorem C6_query_unbuilt (qa : String → Except String QAResult)
    (sim : String → Nat → Except String (List (LCDoc × ℚ)))
    (q : String) (ctx : Option String) (k : Nat) :
    FarmAIRAG.query false qa q ctx =
      { response := "I apologize, but I encountered an error processing your question: Knowledge base not initialized",
        sources := [], query := q } ∧
    FarmAIRAG.hybrid_search false sim q k = [] :=
  ⟨rfl, rfl⟩

/-- C8: `VerificationAgent.verify` skips the provider call and returns its
input unchanged exactly when the composed response contains "error" or
"apologize" case-insensitively; otherwise, a failing provider call yields
the original response with `verified = false` and the failure reason in
`verification_error`, and a succeeding call yields the rewritten response
with `verified = true`; the function is total, so it never raises. -/
theorem C8_verify (llm : String → String → Except String String)
    (q : String) (rd : AgentResponse) :
    (signalsError rd.response = true → VerificationAgent.verify llm q rd = rd) ∧
    (signalsError rd.response = false →
      (∀ e, llm q rd.response = Except.error e →
        VerificationAgent.verify llm q rd =
          { rd with verified := some false, verification_error := some e }) ∧
      (∀ v, llm q rd.response = Except.ok v →
        VerificationAgent.verify llm q rd =
          { rd with response := v, verified := some true })) := by
  refine ⟨?_, ?_⟩
  · intro h
    simp [VerificationAgent.verify, h]
  · intro h
    refine ⟨?_, ?_⟩
    · intro e he
      simp [VerificationAgent.verify, h, he]
    · intro v hv
      simp [VerificationAgent.verify, h, hv]

/-- C8 witness: the skip branch on an apologetic response, and both
verification outcomes on a clean response. -/
theorem C8_verify_witness :
    VerificationAgent.verify (fun _ _ => Except.error "timeout") "q" rdC8 =
      { rdC8 with verified := some false, verification_error := some "timeout" } ∧
    VerificationAgent.verify (fun _ _ => Except.ok "Improved") "q" rdC8 =
      { rdC8 with response := "Improved", verified := some true } ∧
    VerificationAgent.verify (fun _ _ => Except.ok "X") "q" rdErrC8 = rdErrC8 :=
  ⟨((C8_verify (fun _ _ => Except.error "timeout") "q" rdC8).2 (by decide)).1 "timeout" rfl,
   ((C8_verify (fun _ _ => Except.ok "Improved") "q" rdC8).2 (by decide)).2 "Improved" rfl,
   (C8_verify (fun _ _ => Except.ok "X") "q" rdErrC8).1 (by decide)⟩

/-- C5 counterexample: with two retrieved chunks of 1500 characters each,
the context handed to the completion provider is the flat 2000-character
slice of their concatenation — it keeps only the first 498 characters of
the second chunk's text, so the cap is enforced by mid-chunk truncation,
not by dropping whole lowest-ranked chunks. -/
theorem C5_counterexample :
    slicedContext [srcA, srcB] =
      "\n" ++ String.mk (List.replicate 1500 'a') ++ "\n" ++ String.mk (List.replicate 498 'b') ∧
    slicedContext [srcA, srcB] ≠ "\n" ++ String.mk (List.replicate 1500 'a') ∧
    slicedContext [srcA, srcB] ≠ contextConcat [srcA, srcB] := by
  have hL : slicedContext [srcA, srcB] =
      String.mk (List.take 2000
        ((((([] : List Char) ++ ['\n']) ++ List.replicate 1500 'a') ++ ['\n']) ++
          List.replicate 1500 'b')) := rfl
  have hlen1 : (((([] : List Char) ++ ['\n']) ++ List.replicate 1500 'a') ++ ['\n']).length
      = 1502 := by
    simp only [List.length_append, List.length_replicate, List.length_cons, List.length_nil]
  have htake : List.take 2000
      ((((([] : List Char) ++ ['\n']) ++ List.replicate 1500 'a') ++ ['\n']) ++
        List.replicate 1500 'b') =
      (((([] : List Char) ++ ['\n']) ++ List.replicate 1500 'a') ++ ['\n']) ++
        List.replicate 498 'b' := by
    rw [List.take_append_eq_append_take, List.take_of_length_le (le_of_eq_of_le hlen1 (by omega)),
      hlen1, List.take_replicate]
    norm_num
  have hmain : slicedContext [srcA, srcB] =
      "\n" ++ String.mk (List.replicate 1500 'a') ++ "\n" ++ String.mk (List.replicate 498 'b') := by
    rw [hL, htake]
    rfl
  have hlen2000 : (slicedContext [srcA, srcB]).length = 2000 := by
    rw [hL, htake, String.length_mk]
    simp only [List.length_append, List.length_replicate, List.length_cons, List.length_nil]
  refine ⟨hmain, ?_, ?_⟩
  · intro h
    have hcongr := congrArg String.length h
    have hshort : ("\n" ++ String.mk (List.replicate 1500 'a')).length = 1501 := by
      have : ("\n" ++ String.mk (List.replicate 1500 'a')) =
          String.mk (['\n'] ++ List.replicate 1500 'a') := rfl
      rw [this, String.length_mk]
      simp only [List.length_append, List.length_replicate, List.length_cons, List.length_nil]
    rw [hlen2000, hshort] at hcongr
    exact absurd hcongr (by norm_num)
  · intro h
    have hcongr := congrArg String.length h
    have hfull : (contextConcat [srcA, srcB]).length = 3002 := by
      have : contextConcat [srcA, srcB] =
          String.mk ((((([] : List Char) ++ ['\n']) ++ List.replicate 1500 'a') ++ ['\n']) ++
            List.replicate 1500 'b') := rfl
      rw [this, String.length_mk]
      simp only [List.length_append, List.length_replicate, List.length_cons, List.length_nil]
    rw [hlen2000, hfull] at hcongr
    exact absurd hcongr (by norm_num)

/-- C5 (amended): the context passed to the provider in the diagnose and
recommend stages is the concatenation of the retrieved chunks' text (each
preceded by a newline) sliced to its first 2000 characters: the cap holds
and the slice is a prefix of the full concatenation, but it may cut the
last included chunk's text partway through; the diagnose stage feeds the
provider exactly this sliced context. -/
theorem C5_context_slice (sources : List Source) :
    (slicedContext sources).length ≤ 2000 ∧
    (∃ rest, (contextConcat sources).data = (slicedContext sources).data ++ rest) ∧
    (∀ (rag : String → AgentResponse) (llm llm2 : String → String → Except String String)
      (q : String),
      llm q (slicedContext (rag q).sources) = llm2 q (slicedContext (rag q).sources) →
      DiagnosticAgent.diagnose rag llm q = DiagnosticAgent.diagnose rag llm2 q) := by
  refine ⟨?_, ?_, ?_⟩
  · calc (slicedContext sources).length
        = ((contextConcat sources).data.take 2000).length := rfl
      _ = min 2000 (contextConcat sources).data.length := List.length_take _ _
      _ ≤ 2000 := min_le_left _ _
  · exact ⟨(contextConcat sources).data.drop 2000, (List.take_append_drop 2000 _).symm⟩
  · intro rag llm llm2 q h
    simp only [DiagnosticAgent.diagnose, h]

/-- C5 witness: the slice theorem's provider-dependence part applied to two
provider stubs that agree on the actually passed (empty) context. -/
theorem C5_context_slice_witness :
    DiagnosticAgent.diagnose ragW llmW1 "q" = DiagnosticAgent.diagnose ragW llmW2 "q" :=
  (C5_context_slice []).2.2 ragW llmW1 llmW2 "q" rfl

/-- Helper: the document loop of `build_knowledge_base` succeeds exactly
when every input document carries a content key. -/
theorem buildLangchainDocs_ok_iff (split : String → List String) (docs : List PyDoc) :
    (∃ l, buildLangchainDocs split docs = Except.ok l) ↔
      ∀ d ∈ docs, d.content.isSome = true := by
  induction docs with
  | nil => simp [buildLangchainDocs]
  | cons d rest ih =>
      cases hd : d.content with
      | none =>
          simp only [buildLangchainDocs, docChunks, hd]
          constructor
          · rintro ⟨l, hl⟩
            cases hl
          · intro h
            have hmem := h d (List.mem_cons_self d rest)
            rw [hd] at hmem
            cases hmem
      | some c =>
          simp only [buildLangchainDocs, docChunks, hd]
          cases hr : buildLangchainDocs split rest with
          | error e =>
              constructor
              · rintro ⟨l, hl⟩
                cases hl
              · intro h
                have h2 := ih.mpr (fun x hx => h x (List.mem_cons_of_mem d hx))
                rw [hr] at h2
                rcases h2 with ⟨l, hl⟩
                cases hl
          | ok tail =>
              constructor
              · intro _
                intro x hx
                rcases List.mem_cons.mp hx with h1 | h1
                · rw [h1, hd]
                  rfl
                · exact (ih.mp ⟨tail, hr⟩) x h1
              · intro _
                exact ⟨_, rfl⟩

/-- C7 counterexample: a batch holding one valid document and one document
missing its content key fails as a whole (nothing is indexed, the valid
document included), and a document missing only its title is not dropped
but indexed under the default title — so invalid documents are neither
filtered out nor non-fatal as claimed. -/
theorem C7_counterexample :
    FarmAIRAG.build_knowledge_base splitW true [docOk, docNoContent] = (false, none) ∧
    validate_document docNoContent = false ∧
    validate_document docNoTitle = false ∧
    FarmAIRAG.build_knowledge_base splitW true [docNoTitle] =
      (true, some [{ page_content := "untitled advice",
                     metadata := { title := some "Agricultural Guide",
                                   source := some "Agricultural Knowledge Base",
                                   category := some "general",
                                   language := some "en" } }]) :=
  ⟨rfl, rfl, rfl, rfl⟩

/-- C7 (amended): `validate_document` checks for title and content but is
never invoked on the build path; `build_knowledge_base` reads
`doc['content']` directly inside a single try/except, so (externals
succeeding) the build returns True exactly when every document of the
batch has a content key — one document without content is fatal to the
whole batch, and a missing title is tolerated (defaulted), not dropped. -/
theorem C7_build_content_gate (split : String → List String) (docs : List PyDoc) :
    (FarmAIRAG.build_knowledge_base split true docs).1 = true ↔
      ∀ d ∈ docs, d.content.isSome = true := by
  rw [← buildLangchainDocs_ok_iff split docs]
  unfold FarmAIRAG.build_knowledge_base
  cases hb : buildLangchainDocs split docs with
  | error e =>
      simp
  | ok l =>
      simp

/-- C7 witness: the amended theorem applied to the valid one-document
batch. -/
theorem C7_build_content_gate_witness :
    (FarmAIRAG.build_knowledge_base splitW true [docOk]).1 = true :=
  (C7_build_content_gate splitW [docOk]).mpr (by decide)

/-- Helper: duplicate removal only ever keeps elements of its input, in
input order. -/
theorem dedup_sublist (l : List Source) (seen : List String) :
    List.Sublist (dedupSources l seen) l := by
  induction l generalizing seen with
  | nil => simp [dedupSources]
  | cons s rest ih =>
      simp only [dedupSources]
      split
      · exact List.Sublist.cons s (ih seen)
      · exact List.Sublist.cons₂ s (ih _)

/-- Helper: no kept element has a fingerprint that was already seen. -/
theorem dedup_key_not_seen (l : List Source) (seen : List String) :
    ∀ s ∈ dedupSources l seen, contentKey s ∉ seen := by
  induction l generalizing seen with
  | nil => simp [dedupSources]
  | cons s rest ih =>
      simp only [dedupSources]
      split
      · exact ih seen
      · intro t ht
        rcases List.mem_cons.mp ht with h | h
        · rw [h]
          rename_i hns
          exact hns
        · intro hc
          exact ih (contentKey s :: seen) t h (List.mem_cons_of_mem _ hc)

/-- Helper: the fingerprints of the kept elements are pairwise distinct. -/
theorem dedup_keys_nodup (l : List Source) (seen : List String) :
    ((dedupSources l seen).map contentKey).Nodup := by
  induction l generalizing seen with
  | nil => simp [dedupSources]
  | cons s rest ih =>
      simp only [dedupSources]
      split
      · exact ih seen
      · simp only [List.map_cons, List.nodup_cons]
        refine ⟨?_, ih _⟩
        intro hmem
        rcases List.mem_map.mp hmem with ⟨t, ht, hk⟩
        exact dedup_key_not_seen rest (contentKey s :: seen) t ht
          (hk ▸ List.mem_cons_self _ _)

/-- Helper: every unseen fingerprint from the input survives into the
output. -/
theorem dedup_complete (l : List Source) (seen : List String) :
    ∀ s ∈ l, contentKey s ∉ seen →
      contentKey s ∈ (dedupSources l seen).map contentKey := by
  induction l generalizing seen with
  | nil => simp
  | cons s rest ih =>
      intro t ht hns
      rcases List.mem_cons.mp ht with h | h
      · simp only [dedupSources]
        split
        · rename_i hin
          exact absurd (h ▸ hin) hns
        · rw [List.map_cons, h]
          exact List.mem_cons_self _ _
      · simp only [dedupSources]
        split
        · exact ih seen t h hns
        · by_cases hk : contentKey t = contentKey s
          · rw [List.map_cons, hk]
            exact List.mem_cons_self _ _
          · rw [List.map_cons]
            refine List.mem_cons_of_mem _ (ih (contentKey s :: seen) t h ?_)
            intro hc
            rcases List.mem_cons.mp hc with h1 | h1
            · exact hk h1
            · exact hns h1

/-- C9: the combined response's sources are the diagnosis sources followed
by the recommendation sources with duplicates removed: the output is a
sublist of the concatenation (first-seen order preserved), its
first-100-character content fingerprints are pairwise distinct (two sources
count as duplicates exactly when those prefixes are equal), and every input
source's fingerprint is represented in the output. -/
theorem C9_combine_sources_dedup (d r : AgentResponse) :
    List.Sublist (FarmAIAgents.combine_diagnosis_and_recommendation d r).sources
      (d.sources ++ r.sources) ∧
    ((FarmAIAgents.combine_diagnosis_and_recommendation d r).sources.map contentKey).Nodup ∧
    ∀ s ∈ d.sources ++ r.sources,
      contentKey s ∈ (FarmAIAgents.combine_diagnosis_and_recommendation d r).sources.map contentKey := by
  refine ⟨dedup_sublist _ _, dedup_keys_nodup _ _, ?_⟩
  intro s hs
  exact dedup_complete _ [] s hs (by simp)

/-- C9 witness: the dedup theorem applied to concrete responses in which the
recommendation side repeats the diagnosis side's first content prefix. -/
theorem C9_combine_sources_dedup_witness :
    contentKey srcW3 ∈
      (FarmAIAgents.combine_diagnosis_and_recommendation dW rW).sources.map contentKey :=
  (C9_combine_sources_dedup dW rW).2.2 srcW3 (by decide)

/-- C10: the classifier's result always lands in one of the two routed
label sets, so the else-branch of `process_query` (direct rag fallback) is
unreachable: every normal (non-raising) run returns the verification stage
applied to either the diagnose-then-recommend combination or the
recommend-only result. -/
theorem C10_fallback_unreachable (env : Env) (q : String) :
    (QueryClassifierAgent.classify env.classifyLLM q ∈ ["disease", "pest", "problem"] ∨
     QueryClassifierAgent.classify env.classifyLLM q ∈ ["management", "general", "best_practice"]) ∧
    FarmAIAgents.process_query env none q =
      VerificationAgent.verify env.verifyLLM q
        (if QueryClassifierAgent.classify env.classifyLLM q ∈ ["disease", "pest", "problem"] then
          FarmAIAgents.combine_diagnosis_and_recommendation
            (DiagnosticAgent.diagnose env.rag env.diagnoseLLM q)
            (RecommendationAgent.recommend env.rag env.recommendLLM q
              ((DiagnosticAgent.diagnose env.rag env.diagnoseLLM q).diagnosis.getD ""))
        else
          RecommendationAgent.recommend env.rag env.recommendLLM q "") := by
  have hmem := classify_mem_valid env.classifyLLM q
  simp only [valid_categories, List.mem_cons, List.not_mem_nil, or_false] at hmem
  constructor
  · rcases hmem with h | h | h | h | h <;> rw [h] <;> simp
  · show VerificationAgent.verify env.verifyLLM q
      (routeResponse env q (QueryClassifierAgent.classify env.classifyLLM q)) = _
    rcases hmem with h | h | h | h | h <;> rw [h] <;> unfold routeResponse <;> simp

end FarmAI
